import Mathlib

/-!
Verification of the multi-tenant authentication/authorization core of the
`agency` repository, as a shallow embedding in Lean 4.

The embedding follows the source files:
  - `server/authMiddleware.ts` (authenticateJWT, requireRole,
    requireTenantAccess, requirePermission),
  - the JWT helper module (generateToken, verifyToken, refreshToken),
  - the login and admin routes in `server/routes.ts`,
  - the storage layer (user/company lookups and updates).

External primitives (bcrypt, HMAC signing) are modelled symbolically:
a bcrypt hash is an injective tagging of the plaintext, and a JWT
signature is the signed content paired with the signing key (a perfect
MAC: a signature checks if and only if it was produced with the same
key over the same content).  Machine time is a `Nat` of seconds.
-/

namespace Agency

/-- Roles, from the `roleEnum` in the shared schema. -/
inductive Role where
  | super_admin
  | admin
  | manager
  | employee
deriving DecidableEq, Repr

/-- Lifecycle status, from the `statusEnum` in the shared schema. -/
inductive Status where
  | active
  | inactive
  | suspended
deriving DecidableEq, Repr

/-- A user row, restricted to the fields the auth core reads or writes. -/
structure User where
  id : String
  companyId : Option String
  email : String
  name : String
  /-- The stored bcrypt hash. -/
  password : String
  role : Role
  status : Status
  permissions : List (String × Bool)
  lastLogin : Option Nat
deriving DecidableEq, Repr

/-- A company row, restricted to the fields the auth core reads. -/
structure Company where
  id : String
  status : Status
deriving DecidableEq, Repr

/-- The external store (user directory and company directory). -/
structure Store where
  users : List User
  companies : List Company
deriving DecidableEq, Repr

/-- `storage.getUser(id)`: first user row with the given id. -/
def Store.getUser (s : Store) (id : String) : Option User :=
  s.users.find? (fun u => u.id == id)

/-- `storage.getUserByEmail(email)`: first user row with the given email. -/
def Store.getUserByEmail (s : Store) (email : String) : Option User :=
  s.users.find? (fun u => u.email == email)

/-- `storage.getCompany(id)`: first company row with the given id. -/
def Store.getCompany (s : Store) (id : String) : Option Company :=
  s.companies.find? (fun c => c.id == id)

/-- `storage.getAllUsers(companyId?)`: all users, or the company's users. -/
def Store.getAllUsers (s : Store) (companyId : Option String) : List User :=
  match companyId with
  | some cid => s.users.filter (fun u => u.companyId == some cid)
  | none => s.users

/-- `storage.updateUserLastLogin(id)`: sets only the last-login column. -/
def Store.updateUserLastLogin (s : Store) (id : String) (now : Nat) : Store :=
  { s with users := s.users.map (fun u =>
      if u.id == id then { u with lastLogin := some now } else u) }

/-- `storage.updateUserStatus(id, status)`: sets the status column and
returns the updated row (or `none` when no row matched). -/
def Store.updateUserStatus (s : Store) (id : String) (st : Status) :
    Option User × Store :=
  let s2 : Store := { s with users := s.users.map (fun u =>
      if u.id == id then { u with status := st } else u) }
  (s2.getUser id, s2)

/-- Symbolic bcrypt: hashing tags the plaintext (injective, one-way is
not needed for these claims). Models the external `bcrypt.hash`. -/
def bcryptHash (plain : String) : String :=
  "bcrypt\x7c" ++ plain

/-- Models `bcrypt.compare(plain, storedHash)`. -/
def bcryptCompare (plain storedHash : String) : Bool :=
  storedHash == bcryptHash plain

/-! ## Token Service (the JWT helper module) -/

/-- The claims carried inside a token: the `JWTPayload` type from the
shared schema.  `permissions` is optional there; `companyStatus` is the
extra claim the login route adds to the payload it signs. -/
structure JWTPayload where
  userId : String
  companyId : Option String
  email : String
  role : Role
  permissions : Option (List (String × Bool))
  companyStatus : Option Status
deriving DecidableEq, Repr

/-- A symbolic HMAC signature: the signed content together with the
signing key.  A signature verifies against a key and content exactly
when it is this pair (perfect-MAC assumption). -/
def sign (secret : String) (p : JWTPayload) (iat exp : Nat) :
    String × JWTPayload × Nat × Nat :=
  (secret, p, iat, exp)

/-- A serialized token: payload plus the iat/exp registered claims that
`jwt.sign` adds, plus the signature over all of them. -/
structure SignedToken where
  payload : JWTPayload
  iat : Nat
  exp : Nat
  sig : String × JWTPayload × Nat × Nat
deriving DecidableEq, Repr

/-- The decoded result of `jwt.verify`: the payload together with the
`iat`/`exp` fields that were embedded at signing time. -/
structure DecodedToken where
  payload : JWTPayload
  iat : Nat
  exp : Nat
deriving DecidableEq, Repr

/-- The fixed expiry window: `JWT_EXPIRES_IN = "7d"`, in seconds. -/
def jwtWindow : Nat := 7 * 24 * 60 * 60

/-- `generateToken(payload)`: `jwt.sign(payload, JWT_SECRET,
expiresIn 7d)` — stamps issued-at with the current time, expiry one
window later, and signs payload and both stamps. -/
def generateToken (secret : String) (p : JWTPayload) (now : Nat) :
    SignedToken :=
  { payload := p
    iat := now
    exp := now + jwtWindow
    sig := sign secret p now (now + jwtWindow) }

/-- `verifyToken(token)`: `jwt.verify(token, JWT_SECRET)` checks the
signature and that the token is not expired (jsonwebtoken rejects as
soon as the clock reaches `exp`); on failure the helper catches and
returns null. -/
def verifyToken (secret : String) (now : Nat) (t : SignedToken) :
    Option DecodedToken :=
  if t.sig = sign secret t.payload t.iat t.exp ∧ now < t.exp then
    some { payload := t.payload, iat := t.iat, exp := t.exp }
  else
    none

/-- `refreshToken(oldToken)`: verifies the old token, drops the
JWT-specific fields (`iat`, `exp`, `iss`, `aud`) and signs the remaining
claims afresh. -/
def refreshToken (secret : String) (now : Nat) (t : SignedToken) :
    Option SignedToken :=
  match verifyToken secret now t with
  | none => none
  | some d => some (generateToken secret d.payload now)

/-! ## Authentication Resolver and Tenant Status Gate
(`authenticateJWT` in `authMiddleware.ts`) -/

/-- Error messages used by the middleware and routes. -/
def msgNoToken : String := "No token provided"

def msgInvalidToken : String := "Invalid token"

def msgUserInactive : String := "User not found or inactive"

def msgCompanyInactive : String := "Company not found or inactive"

def msgNoCompanyAccess : String := "No company access"

def msgInsufficientPermissions : String := "Insufficient permissions"

def msgInvalidCredentials : String := "Invalid credentials"

def msgRoleMismatch : String := "Role mismatch"

def msgAccountInactive : String := "Account is inactive"

def msgUserNotFound : String := "User not found"

def msgUserDeactivated : String := "User deactivated successfully"

def msgLastAdmin : String := "Cannot delete the last active admin"

/-- The outcome of `authenticateJWT`: either the request continues with
`req.user` (the live user row), `req.jwtPayload` (the verified token
claims) and possibly `req.company` attached, or it is answered with an
HTTP status and message. -/
inductive AuthOutcome where
  | ok (user : User) (payload : JWTPayload) (company : Option Company)
  | err (status : Nat) (message : String)
deriving DecidableEq, Repr

/-- `authenticateJWT`: extract the bearer token, verify it, re-load the
user and require it active, and — for non-super-admin payloads that
carry a company id — re-load the company and require it active. -/
def authenticateJWT (secret : String) (now : Nat) (s : Store)
    (token : Option SignedToken) : AuthOutcome :=
  match token with
  | none => AuthOutcome.err 401 msgNoToken
  | some t =>
    match verifyToken secret now t with
    | none => AuthOutcome.err 401 msgInvalidToken
    | some d =>
      match s.getUser d.payload.userId with
      | none => AuthOutcome.err 401 msgUserInactive
      | some user =>
        if user.status ≠ Status.active then
          AuthOutcome.err 401 msgUserInactive
        else
          if d.payload.role ≠ Role.super_admin then
            match d.payload.companyId with
            | some cid =>
              match s.getCompany cid with
              | none => AuthOutcome.err 401 msgCompanyInactive
              | some company =>
                if company.status ≠ Status.active then
                  AuthOutcome.err 401 msgCompanyInactive
                else
                  AuthOutcome.ok user d.payload (some company)
            | none => AuthOutcome.ok user d.payload none
          else
            AuthOutcome.ok user d.payload none

/-! ## Authorization Guards -/

/-- The outcome of a guard middleware: continue, or answer with an HTTP
status and message. -/
inductive GuardResult where
  | allow
  | deny (status : Nat) (message : String)
deriving DecidableEq, Repr

/-- `requireRole(...roles)`: reads `req.jwtPayload` set by the
authentication middleware and passes exactly when the token role is in
the allowed list. -/
def requireRole (roles : List Role) (payload : Option JWTPayload) :
    GuardResult :=
  match payload with
  | none => GuardResult.deny 403 msgInsufficientPermissions
  | some p =>
    if roles.contains p.role then GuardResult.allow
    else GuardResult.deny 403 msgInsufficientPermissions

/-- Record-of-booleans lookup, defaulting to false (JS truthiness of
`payload.permissions[permission]`). -/
def lookupPerm (perms : List (String × Bool)) (name : String) : Bool :=
  match perms.find? (fun kv => kv.1 == name) with
  | some kv => kv.2
  | none => false

/-- `requirePermission(permission)`: super-admin and admin pass
unconditionally; otherwise the token's embedded permission record must
have the permission set. -/
def requirePermission (permission : String) (payload : Option JWTPayload) :
    GuardResult :=
  match payload with
  | none => GuardResult.deny 403 msgInsufficientPermissions
  | some p =>
    if p.role = Role.super_admin then GuardResult.allow
    else if p.role = Role.admin then GuardResult.allow
    else
      match p.permissions with
      | some perms =>
        if lookupPerm perms permission then GuardResult.allow
        else GuardResult.deny 403
          ("Permission \x27" ++ permission ++ "\x27 required")
      | none => GuardResult.deny 403
          ("Permission \x27" ++ permission ++ "\x27 required")

/-- A request as seen by the tenant-scope middleware: it may carry a
client-supplied tenant id (query/body), which the middleware is free to
read or ignore. -/
structure Request where
  suppliedCompanyId : Option String
deriving DecidableEq, Repr

/-- The outcome of `requireTenantAccess`: continue (with the effective
tenant id the middleware attached to the request, if any), or answer
403. -/
inductive TenantAccess where
  | allow (effectiveCompanyId : Option String)
  | deny (status : Nat) (message : String)
deriving DecidableEq, Repr

/-- `requireTenantAccess`: super-admin continues unscoped; any other
payload must carry a company id, which the middleware writes over
`req.companyId` for downstream data filtering. -/
def requireTenantAccess (payload : JWTPayload) (_req : Request) :
    TenantAccess :=
  if payload.role = Role.super_admin then
    TenantAccess.allow none
  else
    match payload.companyId with
    | none => TenantAccess.deny 403 msgNoCompanyAccess
    | some cid => TenantAccess.allow (some cid)

/-! ## HTTP boundary: the login route and the user-returning routes -/

/-- A user object as serialized into a response body.  `password` is
`some hash` when the stored hash field is present in the JSON and `none`
when it was removed before sending. -/
structure UserOut where
  id : String
  companyId : Option String
  email : String
  name : String
  password : Option String
  role : Role
  status : Status
  permissions : List (String × Bool)
  lastLogin : Option Nat
deriving DecidableEq, Repr

/-- The `const (password: _, ...userWithoutPassword) = user` destructuring
used before `res.json`. -/
def userWithoutPassword (u : User) : UserOut :=
  { id := u.id
    companyId := u.companyId
    email := u.email
    name := u.name
    password := none
    role := u.role
    status := u.status
    permissions := u.permissions
    lastLogin := u.lastLogin }

/-- A user row serialized as-is (every column, the stored hash
included), as happens when the raw row is passed to `res.json`. -/
def userAsJson (u : User) : UserOut :=
  { id := u.id
    companyId := u.companyId
    email := u.email
    name := u.name
    password := some u.password
    role := u.role
    status := u.status
    permissions := u.permissions
    lastLogin := u.lastLogin }

/-- The 200 body of `POST /api/auth/login`:
the user without its password, spread with `company` and
`companyStatus`. -/
structure LoginBody where
  user : UserOut
  company : Option Company
  companyStatus : Status
deriving DecidableEq, Repr

/-- The result of `POST /api/auth/login`: a 200 body plus the token set
as the `auth_token` cookie, or an HTTP error. -/
inductive LoginResult where
  | ok (body : LoginBody) (cookieToken : SignedToken)
  | err (status : Nat) (message : String)
deriving DecidableEq, Repr

/-- `POST /api/auth/login` (the JWT variant in `routes.ts`):
look the user up by email, compare the bcrypt hash, require the claimed
role to match and the account to be active; then read the company (if
any) only to record its status, update last-login, and sign a token
carrying the user identity, its company id and the company status. -/
def login (secret : String) (now : Nat) (s : Store)
    (email password : String) (claimedRole : Role) : LoginResult × Store :=
  match s.getUserByEmail email with
  | none => (LoginResult.err 401 msgInvalidCredentials, s)
  | some user =>
    if ¬ bcryptCompare password user.password then
      (LoginResult.err 401 msgInvalidCredentials, s)
    else if user.role ≠ claimedRole then
      (LoginResult.err 401 msgRoleMismatch, s)
    else if user.status ≠ Status.active then
      (LoginResult.err 401 msgAccountInactive, s)
    else
      let company : Option Company :=
        match user.companyId with
        | some cid => s.getCompany cid
        | none => none
      let companyStatus : Status :=
        match company with
        | some c => c.status
        | none => Status.active
      let s2 := s.updateUserLastLogin user.id now
      let token := generateToken secret
        { userId := user.id
          companyId := user.companyId
          email := user.email
          role := user.role
          permissions := none
          companyStatus := some companyStatus } now
      (LoginResult.ok
        { user := userWithoutPassword user
          company := company
          companyStatus := companyStatus } token, s2)

/-- The 200 body of `GET /api/auth/user`: the authenticated user without
its password, spread with its company row (if any). -/
def authUserEndpoint (s : Store) (currentUser : User) :
    UserOut × Option Company :=
  let company : Option Company :=
    match currentUser.companyId with
    | some cid => s.getCompany cid
    | none => none
  (userWithoutPassword currentUser, company)

/-- The 200 body of `GET /api/admin/users`: the acting admin's company
users, each with the password removed. -/
def adminListUsers (s : Store) (actorCompanyId : Option String) :
    List UserOut :=
  (s.getAllUsers actorCompanyId).map userWithoutPassword

/-- The result of `DELETE /api/admin/users/:id`. On success the body is
`(message, user: deactivatedUser)` where `deactivatedUser` is the raw
row returned by `updateUserStatus`. -/
inductive DeleteUserResult where
  | ok (message : String) (user : Option UserOut)
  | err (status : Nat) (message : String)
deriving DecidableEq, Repr

/-- `DELETE /api/admin/users/:id`: require the target to exist in the
actor's company, refuse to remove the last active admin, then
deactivate the user and respond with the row `updateUserStatus`
returned. -/
def adminDeleteUser (s : Store) (actorCompanyId : Option String)
    (id : String) : DeleteUserResult × Store :=
  match s.getUser id with
  | none => (DeleteUserResult.err 404 msgUserNotFound, s)
  | some user =>
    if user.companyId ≠ actorCompanyId then
      (DeleteUserResult.err 404 msgUserNotFound, s)
    else
      let lastAdminBlock : Bool :=
        if user.role = Role.admin then
          let allAdmins := s.getAllUsers actorCompanyId
          let activeAdmins := allAdmins.filter (fun u =>
            u.role == Role.admin && u.status == Status.active)
          decide (activeAdmins.length ≤ 1)
        else
          false
      if lastAdminBlock then
        (DeleteUserResult.err 400 msgLastAdmin, s)
      else
        let r := s.updateUserStatus id Status.inactive
        (DeleteUserResult.ok msgUserDeactivated (r.1.map userAsJson), r.2)

/-! ## Store-threading view of the per-request middleware

The middleware issues only SELECT queries.  To state the frame claim
about it without baking the answer into a store-less type, the lookups
are rendered as state-passing operations (a SELECT returns its result
and the store it leaves behind) and `authenticateJWT` is re-composed
from them. -/

/-- `storage.getUser` as a state-passing operation. -/
def Store.getUserSt (s : Store) (id : String) : Option User × Store :=
  (s.getUser id, s)

/-- `storage.getCompany` as a state-passing operation. -/
def Store.getCompanySt (s : Store) (id : String) :
    Option Company × Store :=
  (s.getCompany id, s)

/-- `authenticateJWT`, composed from the state-passing lookups so that
the store it leaves behind is part of the result. -/
def authenticateJWTSt (secret : String) (now : Nat)
    (token : Option SignedToken) (s : Store) : AuthOutcome × Store :=
  match token with
  | none => (AuthOutcome.err 401 msgNoToken, s)
  | some t =>
    match verifyToken secret now t with
    | none => (AuthOutcome.err 401 msgInvalidToken, s)
    | some d =>
      let r1 := s.getUserSt d.payload.userId
      match r1.1 with
      | none => (AuthOutcome.err 401 msgUserInactive, r1.2)
      | some user =>
        if user.status ≠ Status.active then
          (AuthOutcome.err 401 msgUserInactive, r1.2)
        else
          if d.payload.role ≠ Role.super_admin then
            match d.payload.companyId with
            | some cid =>
              let r2 := r1.2.getCompanySt cid
              match r2.1 with
              | none => (AuthOutcome.err 401 msgCompanyInactive, r2.2)
              | some company =>
                if company.status ≠ Status.active then
                  (AuthOutcome.err 401 msgCompanyInactive, r2.2)
                else
                  (AuthOutcome.ok user d.payload (some company), r2.2)
            | none => (AuthOutcome.ok user d.payload none, r1.2)
          else
            (AuthOutcome.ok user d.payload none, r1.2)

/-! ## Concrete fixture data for counterexamples and witnesses -/

/-- The default signing secret from the JWT helper module. -/
def secretK : String := "dev-jwt-secret-key"

def tenant1 : String := "T1"

def tenant2 : String := "T2"

def pwEmp : String := "p1"

def emailEmp : String := "emp@t1.test"

/-- An active employee of tenant `T1`. -/
def empT1 : User :=
  { id := "u-emp"
    companyId := some tenant1
    email := emailEmp
    name := "Employee One"
    password := bcryptHash pwEmp
    role := Role.employee
    status := Status.active
    permissions := []
    lastLogin := none }

def companyT1Active : Company := { id := tenant1, status := Status.active }

def companyT1Inactive : Company :=
  { id := tenant1, status := Status.inactive }

/-- Store with the employee and its company active. -/
def storeT1Active : Store :=
  { users := [empT1], companies := [companyT1Active] }

/-- The same store after the platform owner suspends company `T1`. -/
def storeT1Inactive : Store :=
  { users := [empT1], companies := [companyT1Inactive] }

/-- The claims the login route signs for `empT1` while `T1` is active. -/
def payloadEmp : JWTPayload :=
  { userId := empT1.id
    companyId := some tenant1
    email := emailEmp
    role := Role.employee
    permissions := none
    companyStatus := some Status.active }

/-- A token for `empT1` issued at time 0. -/
def tokEmp : SignedToken := generateToken secretK payloadEmp 0

/-- An active employee bound to no company at all. -/
def empNoCompany : User :=
  { id := "u-free"
    companyId := none
    email := "free@none.test"
    name := "Free Agent"
    password := bcryptHash pwEmp
    role := Role.employee
    status := Status.active
    permissions := []
    lastLogin := none }

def storeNoCompany : Store := { users := [empNoCompany], companies := [] }

/-- A token whose claims name no tenant although the role is not
platform-admin. -/
def payloadNoCompany : JWTPayload :=
  { userId := empNoCompany.id
    companyId := none
    email := empNoCompany.email
    role := Role.employee
    permissions := none
    companyStatus := some Status.active }

def tokNoCompany : SignedToken := generateToken secretK payloadNoCompany 0

/-- A token for `empT1` whose embedded role claim says admin, as left
behind when a role is downgraded in the store after issuance. -/
def payloadElevated : JWTPayload :=
  { userId := empT1.id
    companyId := some tenant1
    email := emailEmp
    role := Role.admin
    permissions := none
    companyStatus := some Status.active }

def tokElevated : SignedToken := generateToken secretK payloadElevated 0

def pwAdminA : String := "pa"

def pwAdminB : String := "p2"

/-- First active admin of tenant `T1`. -/
def adminA : User :=
  { id := "u-admA"
    companyId := some tenant1
    email := "adma@t1.test"
    name := "Admin A"
    password := bcryptHash pwAdminA
    role := Role.admin
    status := Status.active
    permissions := []
    lastLogin := none }

/-- Second active admin of tenant `T1`, the deletion target. -/
def adminB : User :=
  { id := "u-admB"
    companyId := some tenant1
    email := "admb@t1.test"
    name := "Admin B"
    password := bcryptHash pwAdminB
    role := Role.admin
    status := Status.active
    permissions := []
    lastLogin := none }

/-- Store with two active admins, so the last-admin guard does not
fire. -/
def storeTwoAdmins : Store :=
  { users := [adminA, adminB], companies := [companyT1Active] }

/-- Whether a login attempt produced a 200 with a token. -/
def LoginResult.isOk : LoginResult → Bool
  | LoginResult.ok _ _ => true
  | LoginResult.err _ _ => false

/-- The claims the login route signs for `empT1` while company `T1` is
inactive: the login still succeeds and records the inactive status. -/
def payloadEmpInactiveStatus : JWTPayload :=
  { userId := empT1.id
    companyId := empT1.companyId
    email := empT1.email
    role := empT1.role
    permissions := none
    companyStatus := some Status.inactive }

/-- `adminB` as it stands after the deactivating delete. -/
def adminBDeactivated : User := { adminB with status := Status.inactive }

/-! ## Helper lemmas -/

/-- Inversion for `verifyToken`: a successful verification means the
signature matched the token's own content under the given secret, the
token was unexpired, and the decoded result is exactly the token's
payload with its embedded stamps. -/
theorem verifyToken_some_inv {secret : String} {now : Nat}
    {t : SignedToken} {d : DecodedToken}
    (h : verifyToken secret now t = some d) :
    t.sig = sign secret t.payload t.iat t.exp ∧ now < t.exp ∧
      d = { payload := t.payload, iat := t.iat, exp := t.exp } := by
  unfold verifyToken at h
  split at h
  · rename_i hc
    cases h
    exact ⟨hc.1, hc.2, rfl⟩
  · cases h

/-- Verification of a generated token at any instant before its expiry
succeeds and decodes to the signed claims with the issuance stamps. -/
theorem verifyToken_generateToken (secret : String) (p : JWTPayload)
    (t0 now : Nat) (h : now < t0 + jwtWindow) :
    verifyToken secret now (generateToken secret p t0) =
      some { payload := p, iat := t0, exp := t0 + jwtWindow } := by
  simp only [verifyToken, generateToken]
  split
  · rfl
  · rename_i hc
    exact absurd h (by simpa using hc)

/-- Inversion for `authenticateJWT`: when the middleware lets a request
through, the attached claims are exactly the verified token's payload,
and the attached user is the freshly loaded row for the token's subject,
with active status. -/
theorem auth_ok_inv {secret : String} {now : Nat} {s : Store}
    {t : SignedToken} {u : User} {p : JWTPayload} {c : Option Company}
    (h : authenticateJWT secret now s (some t) = AuthOutcome.ok u p c) :
    p = t.payload ∧ s.getUser t.payload.userId = some u ∧
      u.status = Status.active := by
  simp only [authenticateJWT] at h
  split at h
  · cases h
  · rename_i d hv
    have hd := verifyToken_some_inv hv
    have hdp : d.payload = t.payload := by rw [hd.2.2]
    rw [hdp] at h
    split at h
    · cases h
    · rename_i user hu
      split at h
      · cases h
      · rename_i hs
        have hs2 : user.status = Status.active := not_not.mp hs
        split at h
        · split at h
          · split at h
            · cases h
            · split at h
              · cases h
              · cases h
                exact ⟨rfl, hu, hs2⟩
          · cases h
            exact ⟨rfl, hu, hs2⟩
        · cases h
          exact ⟨rfl, hu, hs2⟩

/-! ## Claim C6 -/

/-- Claim C6: for every token whose expires-at lies in the past at
verification time, `verifyToken` rejects the token and returns no
claims, even when the token's signature is valid under the current
secret key. -/
theorem verify_rejects_expired (secret : String) (pl : JWTPayload)
    (ia ex now : Nat) (h : ex < now) :
    verifyToken secret now
      { payload := pl, iat := ia, exp := ex, sig := sign secret pl ia ex }
      = none := by
  simp only [verifyToken]
  split
  · rename_i hc
    exact absurd hc.2 (Nat.not_lt.mpr (Nat.le_of_lt h))
  · rfl

/-- Witness for C6 at a concrete expired-but-correctly-signed token. -/
theorem verify_rejects_expired_witness :
    5 < 10 ∧
      verifyToken secretK 10
        { payload := payloadEmp, iat := 0, exp := 5
          sig := sign secretK payloadEmp 0 5 } = none :=
  ⟨by decide, verify_rejects_expired secretK payloadEmp 0 5 10 (by decide)⟩

/-! ## Claim C7 -/

/-- Claim C7: for all valid claims, verifying a freshly issued token
succeeds and returns the same claims, except that issued-at and
expires-at are the stamps `generateToken` set. -/
theorem verify_issue_roundtrip (secret : String) (p : JWTPayload)
    (now : Nat) :
    verifyToken secret now (generateToken secret p now) =
      some { payload := p, iat := now, exp := now + jwtWindow } :=
  verifyToken_generateToken secret p now now
    (Nat.lt_add_of_pos_right (by decide))

/-! ## Claim C8 -/

/-- Claim C8 (amended): refreshing a valid, unexpired generated token
verifies it, keeps the subject/tenant/role claims unchanged, and
re-issues with the expiry window counted from the refresh time — so the
new expiry is never earlier than the old and is strictly later exactly
when the refresh happens strictly after issuance; refreshing any
already-expired token fails and produces no token. -/
theorem refresh_behavior (secret : String) (p : JWTPayload)
    (t0 now : Nat) (t : SignedToken) :
    (t0 ≤ now → now < t0 + jwtWindow →
      refreshToken secret now (generateToken secret p t0) =
          some (generateToken secret p now)
        ∧ (generateToken secret p now).payload = p
        ∧ (generateToken secret p t0).exp ≤ (generateToken secret p now).exp
        ∧ (t0 < now →
            (generateToken secret p t0).exp < (generateToken secret p now).exp))
    ∧ (now ≥ t.exp → refreshToken secret now t = none) := by
  constructor
  · intro h0 h1
    have hv := verifyToken_generateToken secret p t0 now h1
    refine ⟨?_, rfl, ?_, ?_⟩
    · simp only [refreshToken, hv]
    · exact Nat.add_le_add_right h0 jwtWindow
    · intro hlt
      exact Nat.add_lt_add_right hlt jwtWindow
  · intro hexp
    have hv : verifyToken secret now t = none := by
      simp only [verifyToken]
      split
      · rename_i hc
        exact absurd hc.2 (Nat.not_lt.mpr hexp)
      · rfl
    simp only [refreshToken, hv]

/-- Witness for C8 at a concrete refresh two days before expiry, plus a
concrete expired refresh. -/
theorem refresh_behavior_witness :
    (0 ≤ 432000 ∧ 432000 < 0 + jwtWindow ∧
      refreshToken secretK 432000 (generateToken secretK payloadEmp 0) =
        some (generateToken secretK payloadEmp 432000))
    ∧ (700000 ≥ tokEmp.exp ∧ refreshToken secretK 700000 tokEmp = none) :=
  ⟨⟨by decide, by decide,
      ((refresh_behavior secretK payloadEmp 0 432000 tokEmp).1
        (by decide) (by decide)).1⟩,
    ⟨by decide,
      (refresh_behavior secretK payloadEmp 0 700000 tokEmp).2 (by decide)⟩⟩

/-- Counterexample for C8 as stated: a token refreshed at the very
instant of its issuance is valid and unexpired, yet the re-issued token
has exactly the same expiry — not a strictly later one (indeed it is
the identical token). -/
theorem refresh_same_instant_cex :
    (verifyToken secretK 0 tokEmp).isSome = true
    ∧ refreshToken secretK 0 tokEmp = some tokEmp
    ∧ (generateToken secretK payloadEmp 0).exp = tokEmp.exp := by decide

/-! ## Claim C1 -/

/-- Claim C1 (amended): the tenant status gate runs inside the
per-request authentication middleware, after token verification and the
live user re-check.  A super-admin payload bypasses it unconditionally.
A non-super-admin payload that carries a company id is rejected whenever
that company is missing or not active — but with HTTP 401 and the
generic message of the middleware, not a typed TenantSuspended failure
mapped to 403.  Because the company row is re-read from the store on
each request, a still-valid token is rejected as soon as its company is
suspended. -/
theorem tenant_gate_behavior (secret : String) (now : Nat) (s : Store)
    (t : SignedToken) (d : DecodedToken) (u : User) (cid : String)
    (hv : verifyToken secret now t = some d)
    (hu : s.getUser d.payload.userId = some u)
    (hst : u.status = Status.active) :
    (d.payload.role ≠ Role.super_admin → d.payload.companyId = some cid →
      (s.getCompany cid = none ∨
        ∃ comp, s.getCompany cid = some comp ∧ comp.status ≠ Status.active) →
      authenticateJWT secret now s (some t) =
        AuthOutcome.err 401 msgCompanyInactive)
    ∧ (d.payload.role = Role.super_admin →
      authenticateJWT secret now s (some t) = AuthOutcome.ok u d.payload none) := by
  constructor
  · intro hrole hcid hbad
    cases hbad with
    | inl h => simp [authenticateJWT, hv, hu, hst, hrole, hcid, h]
    | inr h =>
      obtain ⟨comp, hc, hcs⟩ := h
      simp [authenticateJWT, hv, hu, hst, hrole, hcid, hc, hcs]
  · intro hrole
    simp [authenticateJWT, hv, hu, hst, hrole]

/-- Witness for C1: the token issued for the employee while `T1` was
active is rejected by the gate once the store records `T1` as
inactive. -/
theorem tenant_gate_behavior_witness :
    verifyToken secretK 100 tokEmp =
      some { payload := payloadEmp, iat := 0, exp := 0 + jwtWindow }
    ∧ storeT1Inactive.getUser payloadEmp.userId = some empT1
    ∧ authenticateJWT secretK 100 storeT1Inactive (some tokEmp) =
        AuthOutcome.err 401 msgCompanyInactive :=
  ⟨by decide, by decide,
    (tenant_gate_behavior secretK 100 storeT1Inactive tokEmp
        { payload := payloadEmp, iat := 0, exp := 0 + jwtWindow }
        empT1 tenant1 (by decide) (by decide) (by decide)).1
      (by decide) (by decide)
      (Or.inr ⟨companyT1Inactive, by decide, by decide⟩)⟩

/-- Counterexample for C1 as stated: the rejection carries HTTP 401 with
the middleware's generic message, not the claimed 403. -/
theorem tenant_gate_not_403_cex :
    authenticateJWT secretK 100 storeT1Inactive (some tokEmp) =
      AuthOutcome.err 401 msgCompanyInactive
    ∧ (401 : Nat) ≠ 403 := by decide

/-! ## Claim C2 -/

/-- Claim C2 (amended): login does not gate on company status.  For a
user with valid credentials, matching claimed role and active account,
login succeeds even when the bound company is inactive: it merely reads
the company, records its status in the response and in the signed
token's claims, and issues the token.  The lockout instead happens on
the next protected request, where the authentication middleware rejects
the token because the company is not active. -/
theorem login_defers_company_gate (secret : String) (now now2 : Nat)
    (s : Store) (email pw : String) (u : User) (cid : String)
    (comp : Company)
    (hu : s.getUserByEmail email = some u)
    (hpw : bcryptCompare pw u.password = true)
    (hst : u.status = Status.active)
    (hcid : u.companyId = some cid)
    (hcomp : s.getCompany cid = some comp) :
    (login secret now s email pw u.role).1 =
      LoginResult.ok
        { user := userWithoutPassword u
          company := some comp
          companyStatus := comp.status }
        (generateToken secret
          { userId := u.id, companyId := u.companyId, email := u.email
            role := u.role, permissions := none
            companyStatus := some comp.status } now)
    ∧ (comp.status ≠ Status.active →
       s.getUser u.id = some u →
       u.role ≠ Role.super_admin →
       now2 < now + jwtWindow →
       authenticateJWT secret now2 s
         (some (generateToken secret
           { userId := u.id, companyId := u.companyId, email := u.email
             role := u.role, permissions := none
             companyStatus := some comp.status } now)) =
         AuthOutcome.err 401 msgCompanyInactive) := by
  constructor
  · simp [login, hu, hpw, hst, hcid, hcomp]
  · intro hbad huid hrole hn2
    have hv := verifyToken_generateToken secret
      { userId := u.id, companyId := u.companyId, email := u.email
        role := u.role, permissions := none
        companyStatus := some comp.status } now now2 hn2
    rw [hcid] at hv
    simp [authenticateJWT, hcid, hv, huid, hst, hrole, hcomp, hbad]

/-- Witness for C2: with company `T1` inactive, the employee's login
still succeeds and returns a token, and that very token is rejected by
the authentication middleware on its next use. -/
theorem login_defers_company_gate_witness :
    storeT1Inactive.getUserByEmail emailEmp = some empT1
    ∧ bcryptCompare pwEmp empT1.password = true
    ∧ (login secretK 0 storeT1Inactive emailEmp pwEmp Role.employee).1 =
        LoginResult.ok
          { user := userWithoutPassword empT1
            company := some companyT1Inactive
            companyStatus := Status.inactive }
          (generateToken secretK payloadEmpInactiveStatus 0)
    ∧ authenticateJWT secretK 100 storeT1Inactive
        (some (generateToken secretK payloadEmpInactiveStatus 0)) =
        AuthOutcome.err 401 msgCompanyInactive :=
  ⟨by decide, by decide,
    (login_defers_company_gate secretK 0 100 storeT1Inactive emailEmp pwEmp
        empT1 tenant1 companyT1Inactive (by decide) (by decide) (by decide)
        (by decide) (by decide)).1,
    (login_defers_company_gate secretK 0 100 storeT1Inactive emailEmp pwEmp
        empT1 tenant1 companyT1Inactive (by decide) (by decide) (by decide)
        (by decide) (by decide)).2
      (by decide) (by decide) (by decide) (by decide)⟩

/-- Counterexample for C2 as stated: the same login attempt against the
store where company `T1` is inactive does not fail — it returns a 200
and a token. -/
theorem login_inactive_company_cex :
    ((login secretK 0 storeT1Inactive emailEmp pwEmp Role.employee).1).isOk
      = true
    ∧ (login secretK 0 storeT1Inactive emailEmp pwEmp Role.employee).1 =
        LoginResult.ok
          { user := userWithoutPassword empT1
            company := some companyT1Inactive
            companyStatus := Status.inactive }
          (generateToken secretK payloadEmpInactiveStatus 0) := by decide

/-! ## Claim C3 -/

/-- Claim C3 (amended): a principal constructed by the authentication
middleware always carries exactly the claims of its verified token, so
its tenant binding equals the tenant id embedded in the token — but
that tenant id may be null even for a non-super-admin role: the
middleware does not fail on a tenant-less non-super-admin token (the
company check is skipped when no company id is present); such a
principal is only rejected later, by `requireTenantAccess`, with 403. -/
theorem principal_tenant_from_token (secret : String) (now : Nat)
    (s : Store) (t : SignedToken) (u : User) (p : JWTPayload)
    (c : Option Company) (req : Request)
    (h : authenticateJWT secret now s (some t) = AuthOutcome.ok u p c) :
    p = t.payload
    ∧ (p.role ≠ Role.super_admin → p.companyId = none →
        requireTenantAccess p req = TenantAccess.deny 403 msgNoCompanyAccess) := by
  refine ⟨(auth_ok_inv h).1, ?_⟩
  intro hrole hcid
  simp [requireTenantAccess, hrole, hcid]

/-- Witness for C3 at the tenant-less employee token. -/
theorem principal_tenant_from_token_witness :
    authenticateJWT secretK 10 storeNoCompany (some tokNoCompany) =
      AuthOutcome.ok empNoCompany payloadNoCompany none
    ∧ payloadNoCompany = tokNoCompany.payload
    ∧ requireTenantAccess payloadNoCompany { suppliedCompanyId := none } =
        TenantAccess.deny 403 msgNoCompanyAccess :=
  ⟨by decide,
    (principal_tenant_from_token secretK 10 storeNoCompany tokNoCompany
        empNoCompany payloadNoCompany none { suppliedCompanyId := none }
        (by decide)).1,
    (principal_tenant_from_token secretK 10 storeNoCompany tokNoCompany
        empNoCompany payloadNoCompany none { suppliedCompanyId := none }
        (by decide)).2 (by decide) (by decide)⟩

/-- Counterexample for C3 as stated: authentication succeeds — it does
not fail — for an active user presenting a token whose role is not
super-admin and whose tenant id is null. -/
theorem auth_accepts_tenantless_principal_cex :
    authenticateJWT secretK 10 storeNoCompany (some tokNoCompany) =
      AuthOutcome.ok empNoCompany payloadNoCompany none
    ∧ payloadNoCompany.role ≠ Role.super_admin
    ∧ payloadNoCompany.companyId = none := by decide

/-! ## Claim C4 -/

/-- Claim C4 (amended): the authorization guards decide on the role and
permission set embedded in the presented token's claims, not on the
freshly loaded user record — the middleware re-reads the live user only
for existence and active status.  Hence when the stored role differs
from the token's role, `requireRole` decides on the token's role, and
for non-admin roles `requirePermission` decides on the token's embedded
permission record. -/
theorem guards_decide_on_token_claims (secret : String) (now : Nat)
    (s : Store) (t : SignedToken) (u : User) (p : JWTPayload)
    (c : Option Company) (roles : List Role) (perm : String)
    (h : authenticateJWT secret now s (some t) = AuthOutcome.ok u p c) :
    (requireRole roles (some p) = GuardResult.allow ↔
      roles.contains t.payload.role = true)
    ∧ (p.role ≠ Role.super_admin → p.role ≠ Role.admin →
        (requirePermission perm (some p) = GuardResult.allow ↔
          lookupPerm (p.permissions.getD []) perm = true)) := by
  have hp := (auth_ok_inv h).1
  subst hp
  constructor
  · by_cases hr : roles.contains t.payload.role = true
    · simp [requireRole, hr]
    · simp [requireRole, hr]
  · intro h1 h2
    cases hperm : t.payload.permissions with
    | none => simp [requirePermission, h1, h2, hperm, lookupPerm]
    | some perms =>
      by_cases hl : lookupPerm perms perm = true
      · simp [requirePermission, h1, h2, hperm, hl]
      · simp [requirePermission, h1, h2, hperm, hl]

/-- Witness for C4: the store records the employee role, the token
claims admin; the middleware accepts and `requireRole` admits the
request as an admin. -/
theorem guards_decide_on_token_claims_witness :
    authenticateJWT secretK 10 storeT1Active (some tokElevated) =
      AuthOutcome.ok empT1 payloadElevated (some companyT1Active)
    ∧ requireRole [Role.admin] (some payloadElevated) = GuardResult.allow :=
  ⟨by decide,
    ((guards_decide_on_token_claims secretK 10 storeT1Active tokElevated
        empT1 payloadElevated (some companyT1Active) [Role.admin]
        emailEmp (by decide)).1).mpr (by decide)⟩

/-- Counterexample for C4 as stated: the stored role is employee, the
token's embedded role is admin, and the guard admits the request — it
decided on the token's claims, not on the live record. -/
theorem guards_use_token_role_cex :
    authenticateJWT secretK 10 storeT1Active (some tokElevated) =
      AuthOutcome.ok empT1 payloadElevated (some companyT1Active)
    ∧ empT1.role = Role.employee
    ∧ payloadElevated.role = Role.admin
    ∧ requireRole [Role.admin] (some payloadElevated) = GuardResult.allow
    ∧ requireRole [Role.admin]
        (some { payloadElevated with role := empT1.role }) ≠
        GuardResult.allow := by decide

/-! ## Claim C5 -/

/-- Claim C5 (amended): for a non-super-admin principal bound to a
tenant, `requireTenantAccess` never rejects on a mismatching supplied
tenant id — it does not read the request's supplied id at all; it
continues and overwrites the request's effective tenant id with the
principal's bound tenant id, so a differing supplied id is neutralized
rather than refused.  Only a principal with no bound tenant id is
rejected. -/
theorem requireTenantAccess_overrides_tenant (p : JWTPayload)
    (req : Request) (cid : String)
    (h1 : p.role ≠ Role.super_admin)
    (h2 : p.companyId = some cid) :
    requireTenantAccess p req = TenantAccess.allow (some cid) := by
  simp [requireTenantAccess, h1, h2]

/-- Witness for C5: the employee bound to `T1` supplies `T2`; the
middleware continues with effective tenant `T1`. -/
theorem requireTenantAccess_overrides_tenant_witness :
    payloadEmp.role ≠ Role.super_admin
    ∧ payloadEmp.companyId = some tenant1
    ∧ requireTenantAccess payloadEmp { suppliedCompanyId := some tenant2 } =
        TenantAccess.allow (some tenant1) :=
  ⟨by decide, by decide,
    requireTenantAccess_overrides_tenant payloadEmp
      { suppliedCompanyId := some tenant2 } tenant1 (by decide) (by decide)⟩

/-- Counterexample for C5 as stated: a request whose supplied target
tenant id differs from the principal's bound tenant id is not rejected;
the middleware lets it continue (bound to `T1`). -/
theorem tenant_mismatch_not_rejected_cex :
    requireTenantAccess payloadEmp { suppliedCompanyId := some tenant2 } =
      TenantAccess.allow (some tenant1)
    ∧ tenant2 ≠ tenant1 := by decide

/-! ## Claim C9 -/

/-- Claim C9: the pipeline mutates no shared state except the
last-login update on login.  The per-request authentication middleware
performs no store writes (the store it leaves behind is the store it
received, and its answer agrees with the store-less rendering); a
failed login leaves the store unchanged; a successful login happens
exactly when the credential, role and status checks pass, and then the
resulting store is precisely the last-login update for the
authenticated user — an update that keeps the companies, the user count
and every field of every user other than that user's last-login. -/
theorem auth_pipeline_frame (secret : String) (now : Nat) (s : Store)
    (tok : Option SignedToken) (email pw : String) (claimedRole : Role)
    (uid : String) :
    ((authenticateJWTSt secret now tok s).2 = s
      ∧ (authenticateJWTSt secret now tok s).1 =
          authenticateJWT secret now s tok)
    ∧ (∀ st msg,
        (login secret now s email pw claimedRole).1 = LoginResult.err st msg →
        (login secret now s email pw claimedRole).2 = s)
    ∧ (∀ body ctok,
        (login secret now s email pw claimedRole).1 = LoginResult.ok body ctok →
        ∃ u, s.getUserByEmail email = some u
          ∧ bcryptCompare pw u.password = true
          ∧ u.role = claimedRole
          ∧ u.status = Status.active
          ∧ (login secret now s email pw claimedRole).2 =
              s.updateUserLastLogin u.id now)
    ∧ ((s.updateUserLastLogin uid now).companies = s.companies
        ∧ (s.updateUserLastLogin uid now).users.length = s.users.length
        ∧ ∀ v ∈ (s.updateUserLastLogin uid now).users, ∃ u ∈ s.users,
            v = u ∨ ((u.id == uid) = true
              ∧ v = { u with lastLogin := some now })) := by
  refine ⟨⟨?_, ?_⟩, ?_, ?_, rfl, ?_, ?_⟩
  · simp only [authenticateJWTSt, Store.getUserSt, Store.getCompanySt]
    repeat' split
    all_goals rfl
  · simp only [authenticateJWTSt, authenticateJWT, Store.getUserSt,
      Store.getCompanySt]
    repeat' split
    all_goals rfl
  · intro st msg h
    unfold login at h ⊢
    split at h
    · rfl
    · rename_i u hu
      split at h
      · rename_i hc
        rw [if_pos hc]
      · rename_i hc
        rw [if_neg hc]
        split at h
        · rename_i hc2
          rw [if_pos hc2]
        · rename_i hc2
          rw [if_neg hc2]
          split at h
          · rename_i hc3
            rw [if_pos hc3]
          · rename_i hc3
            rw [if_neg hc3]
            simp at h
  · intro body ctok h
    unfold login at h ⊢
    split at h
    · cases h
    · rename_i u hu
      split at h
      · cases h
      · rename_i hc
        split at h
        · cases h
        · rename_i hc2
          split at h
          · cases h
          · rename_i hc3
            rw [if_neg hc, if_neg hc2, if_neg hc3]
            refine ⟨u, hu, ?_, ?_, ?_, rfl⟩
            · simpa using hc
            · simpa using hc2
            · simpa using hc3
  · simp [Store.updateUserLastLogin]
  · intro v hv
    simp only [Store.updateUserLastLogin, List.mem_map] at hv
    obtain ⟨u, hu, hvu⟩ := hv
    refine ⟨u, hu, ?_⟩
    by_cases hid : (u.id == uid) = true
    · right
      rw [if_pos hid] at hvu
      exact ⟨hid, hvu.symm⟩
    · left
      rw [if_neg hid] at hvu
      exact hvu.symm

/-- Witness for C9: a concrete failed login (wrong password) leaves the
store exactly as it was. -/
theorem auth_pipeline_frame_witness :
    (login secretK 0 storeT1Active emailEmp pwAdminB Role.employee).1 =
      LoginResult.err 401 msgInvalidCredentials
    ∧ (login secretK 0 storeT1Active emailEmp pwAdminB Role.employee).2 =
        storeT1Active :=
  ⟨by decide,
    (auth_pipeline_frame secretK 0 storeT1Active none emailEmp pwAdminB
        Role.employee empT1.id).2.1 401 msgInvalidCredentials (by decide)⟩

/-! ## Claim C10 -/

/-- Claim C10 fails on the code: while login, the current-user endpoint
and the admin list/create/update endpoints destructure the password out
before responding, the admin delete (deactivate) endpoint passes the
raw updated row to the response, so its body carries the stored bcrypt
hash.  Evaluated at a two-admin tenant where the guard against removing
the last admin does not fire. -/
theorem admin_delete_returns_password_hash :
    (adminDeleteUser storeTwoAdmins (some tenant1) adminB.id).1 =
      DeleteUserResult.ok msgUserDeactivated
        (some (userAsJson adminBDeactivated))
    ∧ (userAsJson adminBDeactivated).password = some (bcryptHash pwAdminB)
    ∧ (userWithoutPassword adminBDeactivated).password = none
    ∧ (adminListUsers storeTwoAdmins (some tenant1)).all
        (fun out => out.password == none) = true := by decide

end Agency
